import Mathlib

/-!
Formal model of the `virals` video-transcription web application.

The development shallowly embeds the client-observable logic of the
repository in Lean 4:

* the interactive-transcript synchronizer
  (`src/components/videos/interactive-transcript.tsx`): current-word
  lookup via `Array.prototype.findIndex`, the words `useMemo`
  extraction, the empty-words rendering fallback, the confidence
  classification helpers and the word-click handler;
* the Deepgram webhook endpoint
  (`src/app/api/deepgram/callback/route.ts`) together with the
  `updateTranscript` server action (`src/app/actions/videos.ts`),
  modelled as a pure function over an explicit store of video rows;
* the `deleteVideo` / `deleteVideoFile` and `uploadVideoFile` server
  actions, modelled with explicit environments for the external
  authentication, database and storage effects and an explicit trace
  of the mutations performed.

Floating-point seconds and confidence values are modelled as rationals;
every property proved here is purely order-theoretic, so the embedding
is faithful for the comparisons the code performs.
-/

/-- One recognized token of the transcript, as in the `Word` interface of
`interactive-transcript.tsx`. The source field `end` is a Lean keyword and
is rendered here as `endTime`. -/
structure Word where
  word : String
  start : ℚ
  endTime : ℚ
  confidence : ℚ
  punctuated_word : Option String
deriving DecidableEq

/-- The predicate of the `findIndex` callback in the current-word effect:
`currentTime >= word.start && currentTime <= word.end`. -/
def wordActive (currentTime : ℚ) (w : Word) : Bool :=
  decide (currentTime ≥ w.start) && decide (currentTime ≤ w.endTime)

/-- Index of the first element satisfying `p`, as an `Option Nat`; helper
for the JavaScript `Array.prototype.findIndex` semantics. -/
def jsFindIndexNat {α : Type} (p : α → Bool) : List α → Option Nat
  | [] => none
  | a :: as => if p a then some 0 else (jsFindIndexNat p as).map (· + 1)

/-- JavaScript `Array.prototype.findIndex`: the index of the first element
satisfying `p`, or `-1` when none does. -/
def jsFindIndex {α : Type} (p : α → Bool) (l : List α) : Int :=
  match jsFindIndexNat p l with
  | some i => (i : Int)
  | none => -1

/-- The current-word lookup of the synchronizer: the body of the debounced
effect in `interactive-transcript.tsx`,
`words.findIndex((word) => currentTime >= word.start && currentTime <= word.end)`. -/
def locateCurrentWord (words : List Word) (currentTime : ℚ) : Int :=
  jsFindIndex (wordActive currentTime) words

/-- The full current-word effect, including the early return
`if (!highlightCurrentWord || words.length === 0) setCurrentWordIndex(-1)`. -/
def currentWordEffect (highlightCurrentWord : Bool) (words : List Word)
    (currentTime : ℚ) : Int :=
  if !highlightCurrentWord || words.length == 0 then -1
  else locateCurrentWord words currentTime

/-- `getConfidenceColor` from `interactive-transcript.tsx`, with the
duplicated `0.7` threshold exactly as in the source. -/
def getConfidenceColor (confidence : ℚ) : String :=
  if confidence ≥ 7/10 then "text-green-600"
  else if confidence ≥ 7/10 then "text-yellow-600"
  else "text-red-600"

/-- `getConfidenceBadge` from `interactive-transcript.tsx`. -/
def getConfidenceBadge (confidence : ℚ) : String :=
  if confidence ≥ 9/10 then "High"
  else if confidence ≥ 7/10 then "Medium"
  else "Low"

/-- `handleWordClick` from `interactive-transcript.tsx`: invokes the
`onWordClick` callback with `word.start`. -/
def handleWordClick {α : Type} (onWordClick : ℚ → α) (word : Word) : α :=
  onWordClick word.start

/-- A raw word object as it may arrive in untyped transcript data: every
field may be absent. -/
structure RawWord where
  word : Option String
  start : Option ℚ
  endTime : Option ℚ
  confidence : Option ℚ
deriving DecidableEq

/-- The untyped `transcriptData` prop (`any` in the source): either a
non-array JSON value, described by a string tag, or an array of raw word
objects. -/
inductive TranscriptData where
  | nonArray : String → TranscriptData
  | array : List RawWord → TranscriptData
deriving DecidableEq

/-- The words `useMemo` of `interactive-transcript.tsx`: returns `[]` when
the data is not an array or is an empty array, and otherwise returns the
array unchanged, with no per-element field check. -/
def extractWords : TranscriptData → List RawWord
  | .nonArray _ => []
  | .array ws => if ws.length == 0 then [] else ws

/-- Whether the component renders the empty-state card: the source takes
the fallback branch exactly when `words.length === 0`. -/
def rendersFallback (transcriptData : TranscriptData) : Bool :=
  (extractWords transcriptData).length == 0

/-- A raw word is missing a required field when any of `word`, `start`,
`end` or `confidence` is absent. -/
def missingRequiredField (w : RawWord) : Bool :=
  w.word.isNone || w.start.isNone || w.endTime.isNone || w.confidence.isNone

/-- Malformed transcript input in the sense of the specification: not an
array, an empty array, or an array with an element missing a required
field. -/
def malformedTranscript : TranscriptData → Bool
  | .nonArray _ => true
  | .array ws => ws.isEmpty || ws.any missingRequiredField

/-- The uniform result shape of the server actions (`ActionResult` in
`src/app/actions/videos.ts`); the optional `data` payload is not needed by
any property proved here. -/
structure ActionResult where
  success : Bool
  error : Option String
deriving DecidableEq

/-- The `WordTimeStamps` type of `src/app/actions/videos.ts`. The source
field `end` is a Lean keyword and is rendered here as `endTime`. -/
structure WordTimeStamps where
  word : String
  start : ℚ
  endTime : ℚ
  confidence : ℚ
deriving DecidableEq

/-- One row of the `videos` table, restricted to the columns the modelled
actions read or write. -/
structure VideoRow where
  id : String
  project_id : String
  storage_path : String
  status : String
  transcript_text : Option String
  transcript_data_full : Option (List WordTimeStamps)
  deepgram_request_id : Option String
deriving DecidableEq

/-- The videos table together with a flag telling whether the store
reports an error on the next update (the `error` result of the Supabase
`update` call). -/
structure VideosStore where
  rows : List VideoRow
  updateError : Bool
deriving DecidableEq

/-- The per-row effect of the `updateTranscript` Supabase query: rows
whose `deepgram_request_id` equals the request id receive the new
transcript text, the full word array and status `transcribed`; other rows
are unchanged. -/
def applyTranscriptUpdate (requestId : String) (transcriptText : String)
    (transcriptData : List WordTimeStamps) (r : VideoRow) : VideoRow :=
  if r.deepgram_request_id = some requestId then
    { r with
        transcript_text := some transcriptText,
        transcript_data_full := some transcriptData,
        status := "transcribed" }
  else r

/-- The `updateTranscript` server action of `src/app/actions/videos.ts`:
updates every row matching the request id; when the store reports an
error the update does not happen and the action returns a failure result,
otherwise it returns success. -/
def updateTranscript (requestId : String) (transcriptText : String)
    (transcriptData : List WordTimeStamps) (s : VideosStore) :
    ActionResult × VideosStore :=
  if s.updateError then
    ({ success := false, error := some "Failed to update transcript" }, s)
  else
    ({ success := true, error := none },
     { s with
         rows := s.rows.map
           (applyTranscriptUpdate requestId transcriptText transcriptData) })

/-- The `metadata` object of a Deepgram callback payload, restricted to the
field the handler reads. -/
structure DeepgramMetadata where
  request_id : String
deriving DecidableEq

/-- One alternative of a Deepgram callback payload. -/
structure DeepgramAlternative where
  transcript : String
  words : List WordTimeStamps
deriving DecidableEq

/-- One channel of a Deepgram callback payload. -/
structure Channel where
  alternatives : List DeepgramAlternative
deriving DecidableEq

/-- The `results` object of a Deepgram callback payload. -/
structure DeepgramResults where
  channels : List Channel
deriving DecidableEq

/-- A parsed callback body; `metadata` or `results` may be absent, in
which case the property accesses in the handler throw. -/
structure RawCallbackBody where
  metadata : Option DeepgramMetadata
  results : Option DeepgramResults
deriving DecidableEq

/-- An inbound webhook request: either the body fails to parse as JSON, or
it parses to some `RawCallbackBody`. -/
inductive CallbackRequest where
  | invalidJson : CallbackRequest
  | json : RawCallbackBody → CallbackRequest
deriving DecidableEq

/-- An HTTP response as produced by the route handler. -/
structure HttpResponse where
  body : String
  status : Nat
deriving DecidableEq

/-- The field extraction of the webhook handler:
`data?.metadata.request_id`,
`data?.results.channels[0].alternatives[0].transcript` and
`data?.results.channels[0].alternatives[0].words`. Returns `none` when
any access in this chain throws (missing `metadata` or `results`, empty
`channels` or empty `alternatives`). -/
def extractCallbackFields (b : RawCallbackBody) :
    Option (String × String × List WordTimeStamps) :=
  match b.metadata, b.results with
  | some m, some res =>
    match res.channels with
    | [] => none
    | c :: _ =>
      match c.alternatives with
      | [] => none
      | a :: _ => some (m.request_id, a.transcript, a.words)
  | _, _ => none

/-- The `POST` handler of `src/app/api/deepgram/callback/route.ts`: on any
exception (unparseable JSON or a failing field access) it returns
`500 error`; otherwise it calls `updateTranscript`, ignores the returned
result, and replies `200 ok`. -/
def callbackPOST (req : CallbackRequest) (s : VideosStore) :
    HttpResponse × VideosStore :=
  match req with
  | .invalidJson => ({ body := "error", status := 500 }, s)
  | .json b =>
    match extractCallbackFields b with
    | none => ({ body := "error", status := 500 }, s)
    | some (requestId, transcriptText, transcriptData) =>
      let r := updateTranscript requestId transcriptText transcriptData s
      ({ body := "ok", status := 200 }, r.2)

/-- The owned video row fetched by `deleteVideo` before deleting: the
columns selected are `project_id` and `storage_path`. -/
structure VideoMeta where
  project_id : String
  storage_path : String
deriving DecidableEq

/-- Environment of external effects for `deleteVideo`: whether the id
passes `videoIdSchema.parse`, whether `auth.getUser` succeeds, the owned
video row found for the caller (if any), and whether the database delete
and the storage remove report errors. -/
structure DeleteEnv where
  idValid : Bool
  authed : Bool
  video : Option VideoMeta
  dbDeleteError : Bool
  storageDeleteError : Bool
deriving DecidableEq

/-- Trace of the mutations performed while running `deleteVideo`:
whether the database row was deleted, how many storage `remove` calls
were issued, and how many storage errors were logged (and ignored). -/
structure DeleteTrace where
  recordDeleted : Bool
  storageRemoveCalls : Nat
  loggedStorageErrors : Nat
deriving DecidableEq

/-- The empty trace at the start of a `deleteVideo` run. -/
def emptyDeleteTrace : DeleteTrace :=
  { recordDeleted := false, storageRemoveCalls := 0, loggedStorageErrors := 0 }

/-- The `deleteVideoFile` server action: after the authentication check it
issues the storage `remove`; a storage error is logged but the action
still returns success (the source comment says the operation must not
fail when the file deletion fails). -/
def deleteVideoFile (env : DeleteEnv) (tr : DeleteTrace) :
    ActionResult × DeleteTrace :=
  if !env.authed then
    ({ success := false, error := some "Authentication required" }, tr)
  else
    ({ success := true, error := none },
     { tr with
         storageRemoveCalls := tr.storageRemoveCalls + 1,
         loggedStorageErrors :=
           tr.loggedStorageErrors + (if env.storageDeleteError then 1 else 0) })

/-- The `deleteVideo` server action: validate the id, check
authentication, fetch the owned row, delete the database record, and then
best-effort delete the storage file when `storage_path` is truthy,
ignoring the result of that cleanup. -/
def deleteVideo (env : DeleteEnv) : ActionResult × DeleteTrace :=
  if !env.idValid then
    ({ success := false, error := some "Invalid video ID" }, emptyDeleteTrace)
  else if !env.authed then
    ({ success := false, error := some "Authentication required" },
     emptyDeleteTrace)
  else
    match env.video with
    | none =>
      ({ success := false, error := some "Video not found or access denied" },
       emptyDeleteTrace)
    | some v =>
      if env.dbDeleteError then
        ({ success := false, error := some "Failed to delete video" },
         emptyDeleteTrace)
      else
        let tr1 := { emptyDeleteTrace with recordDeleted := true }
        if v.storage_path ≠ "" then
          let r := deleteVideoFile env tr1
          ({ success := true, error := none }, r.2)
        else
          ({ success := true, error := none }, tr1)

/-- The `File` object read from the upload form data, restricted to the
fields `uploadVideoFile` validates. -/
structure UploadFile where
  name : String
  size : Nat
  type : String
deriving DecidableEq

/-- The form data passed to `uploadVideoFile`; `formData.get` yields
`null` for a missing entry, modelled as `none`. -/
structure UploadForm where
  file : Option UploadFile
  projectId : Option String
deriving DecidableEq

/-- JavaScript falsiness of the `projectId` form value: `null` and the
empty string are falsy. -/
def jsFalsyStr : Option String → Bool
  | none => true
  | some s => s == ""

/-- Environment of external effects for `uploadVideoFile`: whether
`auth.getUser` succeeds, whether the project lookup finds a project owned
by the caller, and whether the storage upload reports an error. -/
structure UploadEnv where
  authed : Bool
  projectOwned : Bool
  uploadError : Bool
deriving DecidableEq

/-- Trace of the external effects performed while running
`uploadVideoFile`: whether the store client was created and how many
storage upload calls were issued. -/
structure UploadTrace where
  clientCreated : Bool
  storageUploads : Nat
deriving DecidableEq

/-- The trace of a `uploadVideoFile` run that returned before creating
the store client. -/
def noUploadEffects : UploadTrace :=
  { clientCreated := false, storageUploads := 0 }

/-- The 100 MB size limit of `uploadVideoFile`. -/
def maxSize : Nat := 100 * 1024 * 1024

/-- The MIME types accepted by `uploadVideoFile`. -/
def allowedTypes : List String :=
  ["video/mp4", "video/mov", "video/avi", "video/webm", "video/quicktime"]

/-- The `uploadVideoFile` server action: field-level validation of the
file, the project id, the file size and the MIME type, in source order,
before the store client is created; then the authentication check, the
project ownership check and the storage upload. -/
def uploadVideoFile (form : UploadForm) (env : UploadEnv) :
    ActionResult × UploadTrace :=
  match form.file with
  | none => ({ success := false, error := some "No file provided" }, noUploadEffects)
  | some file =>
    if jsFalsyStr form.projectId then
      ({ success := false, error := some "Project ID is required" },
       noUploadEffects)
    else if file.size > maxSize then
      ({ success := false, error := some "File size must be less than 100MB" },
       noUploadEffects)
    else if !(allowedTypes.contains file.type) then
      ({ success := false,
         error :=
           some "File type not supported. Please use MP4, MOV, AVI, or WebM" },
       noUploadEffects)
    else
      let tr1 : UploadTrace := { clientCreated := true, storageUploads := 0 }
      if !env.authed then
        ({ success := false, error := some "Authentication required" }, tr1)
      else if !env.projectOwned then
        ({ success := false, error := some "Project not found or access denied" },
         tr1)
      else
        let tr2 : UploadTrace := { tr1 with storageUploads := 1 }
        if env.uploadError then
          ({ success := false, error := some "Failed to upload file" }, tr2)
        else
          ({ success := true, error := none }, tr2)

/-- First-match characterization of `jsFindIndexNat`: it returns `none`
exactly when no element satisfies the predicate, and otherwise the least
index whose element satisfies it. -/
theorem jsFindIndexNat_first_match {α : Type} (p : α → Bool) (l : List α) :
    (jsFindIndexNat p l = none ∧
       ∀ i (h : i < l.length), p (l.get ⟨i, h⟩) = false) ∨
    (∃ i, ∃ h : i < l.length, jsFindIndexNat p l = some i ∧
       p (l.get ⟨i, h⟩) = true ∧
       ∀ j (hj : j < i), p (l.get ⟨j, Nat.lt_trans hj h⟩) = false) := by
  induction l with
  | nil =>
    left
    exact ⟨rfl, fun i h => absurd h (Nat.not_lt_zero i)⟩
  | cons a as ih =>
    by_cases hpa : p a = true
    · right
      refine ⟨0, Nat.succ_pos as.length, ?_, hpa, ?_⟩
      · simp [jsFindIndexNat, hpa]
      · intro j hj
        exact absurd hj (Nat.not_lt_zero j)
    · have hpa2 : p a = false := by
        cases hp : p a
        · rfl
        · exact absurd hp hpa
      rcases ih with ⟨hnone, hall⟩ | ⟨i, h, hsome, hp, hfirst⟩
      · left
        constructor
        · simp [jsFindIndexNat, hpa2, hnone]
        · intro i h
          cases i with
          | zero => exact hpa2
          | succ j => exact hall j (Nat.lt_of_succ_lt_succ h)
      · right
        refine ⟨i + 1, Nat.succ_lt_succ h, ?_, hp, ?_⟩
        · simp [jsFindIndexNat, hpa2, hsome]
        · intro j hj
          cases j with
          | zero => exact hpa2
          | succ k => exact hfirst k (Nat.lt_of_succ_lt_succ hj)

/-- The `findIndex` predicate holds exactly when the word brackets the
current time with both bounds inclusive. -/
theorem wordActive_iff (currentTime : ℚ) (w : Word) :
    wordActive currentTime w = true ↔
      (w.start ≤ currentTime ∧ currentTime ≤ w.endTime) := by
  simp [wordActive, ge_iff_le]

/-- The negated form of `wordActive_iff`. -/
theorem wordActive_eq_false_iff (currentTime : ℚ) (w : Word) :
    wordActive currentTime w = false ↔
      ¬(w.start ≤ currentTime ∧ currentTime ≤ w.endTime) := by
  rw [← wordActive_iff currentTime w]
  cases wordActive currentTime w <;> simp

/-- C1. First-match contract of `locateCurrentWord`: for every word list
and current time, the result is `-1` (and then no word brackets the
current time), or the index `i` of a word with
`start ≤ currentTime ≤ end`, both bounds inclusive, such that no earlier
index also satisfies the predicate; ties are broken towards the earliest
index. -/
theorem locateCurrentWord_first_match (words : List Word) (currentTime : ℚ) :
    (locateCurrentWord words currentTime = -1 ∧
       ∀ i (h : i < words.length),
         ¬((words.get ⟨i, h⟩).start ≤ currentTime ∧
             currentTime ≤ (words.get ⟨i, h⟩).endTime)) ∨
    (∃ i, ∃ h : i < words.length,
       locateCurrentWord words currentTime = (i : Int) ∧
       ((words.get ⟨i, h⟩).start ≤ currentTime ∧
          currentTime ≤ (words.get ⟨i, h⟩).endTime) ∧
       ∀ j (hj : j < i),
         ¬((words.get ⟨j, Nat.lt_trans hj h⟩).start ≤ currentTime ∧
             currentTime ≤ (words.get ⟨j, Nat.lt_trans hj h⟩).endTime)) := by
  rcases jsFindIndexNat_first_match (wordActive currentTime) words with
    ⟨hnone, hall⟩ | ⟨i, h, hsome, hp, hfirst⟩
  · left
    constructor
    · simp [locateCurrentWord, jsFindIndex, hnone]
    · intro i h
      exact (wordActive_eq_false_iff currentTime _).mp (hall i h)
  · right
    refine ⟨i, h, ?_, (wordActive_iff currentTime _).mp hp, ?_⟩
    · simp [locateCurrentWord, jsFindIndex, hsome]
    · intro j hj
      exact (wordActive_eq_false_iff currentTime _).mp (hfirst j hj)

/-- C4. Empty-input sentinel: on the empty word list `locateCurrentWord`
yields `-1` for every current time, and so does the full current-word
effect for either value of `highlightCurrentWord`. -/
theorem locateCurrentWord_nil (currentTime : ℚ) :
    locateCurrentWord [] currentTime = -1 ∧
    ∀ highlightCurrentWord : Bool,
      currentWordEffect highlightCurrentWord [] currentTime = -1 := by
  constructor
  · rfl
  · intro hl
    cases hl <;> rfl

/-- C7. Word-click seek value: `handleWordClick` passes exactly
`word.start` to the `onWordClick` callback, so its behavior depends only
on the `start` field of the word. -/
theorem handleWordClick_passes_start {α : Type} (onWordClick : ℚ → α)
    (w w2 : Word) (hstart : w.start = w2.start) :
    handleWordClick onWordClick w = onWordClick w.start ∧
    handleWordClick onWordClick w = handleWordClick onWordClick w2 := by
  constructor
  · rfl
  · simp [handleWordClick, hstart]

/-- Witness for C7 at two concrete words sharing `start = 1.3` but
differing in every other field. -/
theorem handleWordClick_passes_start_witness :
    (Word.mk "cuban" (13/10) (18/10) (87/100) none).start =
      (Word.mk "food" (13/10) (21/10) (1/2) (some "food.")).start ∧
    (handleWordClick (fun q => q) (Word.mk "cuban" (13/10) (18/10) (87/100) none) =
       (fun q : ℚ => q) (Word.mk "cuban" (13/10) (18/10) (87/100) none).start ∧
     handleWordClick (fun q => q) (Word.mk "cuban" (13/10) (18/10) (87/100) none) =
       handleWordClick (fun q => q) (Word.mk "food" (13/10) (21/10) (1/2) (some "food."))) :=
  ⟨rfl, handleWordClick_passes_start (fun q => q) _ _ rfl⟩

/-- C6. The duplicated threshold in `getConfidenceColor`: both branches
test `confidence >= 0.7`, so the yellow (medium) band is produced by no
input whatsoever, while `getConfidenceBadge` classifies the same
confidence `0.8` as `Medium`; the badge function does realize all three
bands. -/
theorem getConfidenceColor_yellow_unreachable :
    (∀ c : ℚ, getConfidenceColor c ≠ "text-yellow-600") ∧
    getConfidenceColor (8/10) = "text-green-600" ∧
    getConfidenceBadge (8/10) = "Medium" ∧
    getConfidenceBadge (95/100) = "High" ∧
    getConfidenceBadge (1/2) = "Low" := by
  refine ⟨?_, ?_, ?_, ?_, ?_⟩
  · intro c
    unfold getConfidenceColor
    by_cases hc : c ≥ 7/10
    · rw [if_pos hc]
      decide
    · rw [if_neg hc, if_neg hc]
      decide
  · norm_num [getConfidenceColor]
  · norm_num [getConfidenceBadge]
  · norm_num [getConfidenceBadge]
  · norm_num [getConfidenceBadge]

/-- C3 counterexample: a non-empty array whose single element is missing
every required field is malformed in the sense of the claim, yet the
words memo returns it unchanged (one word, not zero) and the component
does not render the no-transcript fallback. -/
theorem malformed_array_not_fallback :
    malformedTranscript (TranscriptData.array [RawWord.mk none none none none]) = true ∧
    (extractWords (TranscriptData.array [RawWord.mk none none none none])).length = 1 ∧
    rendersFallback (TranscriptData.array [RawWord.mk none none none none]) = false :=
  ⟨rfl, rfl, rfl⟩

/-- C3 amended: for every transcript input that is not an array or is an
empty array, the words memo reports zero words and the component renders
the no-transcript fallback; element-level field checks are not performed. -/
theorem nonarray_or_empty_degrades (d : TranscriptData)
    (h : (∃ s, d = TranscriptData.nonArray s) ∨ d = TranscriptData.array []) :
    extractWords d = [] ∧ rendersFallback d = true := by
  rcases h with ⟨s, rfl⟩ | rfl
  · exact ⟨rfl, rfl⟩
  · exact ⟨rfl, rfl⟩

/-- Witness for the amended C3 at the literal string input of scenario B
of the specification. -/
theorem nonarray_or_empty_degrades_witness :
    ((∃ s, TranscriptData.nonArray "hello world" = TranscriptData.nonArray s) ∨
       TranscriptData.nonArray "hello world" = TranscriptData.array []) ∧
    (extractWords (TranscriptData.nonArray "hello world") = [] ∧
       rendersFallback (TranscriptData.nonArray "hello world") = true) :=
  ⟨Or.inl ⟨"hello world", rfl⟩,
   nonarray_or_empty_degrades (TranscriptData.nonArray "hello world")
     (Or.inl ⟨"hello world", rfl⟩)⟩

/-- C2. Webhook transcript update: for every payload of the documented
shape the handler extracts `metadata.request_id` and the channel-0
alternative-0 transcript and words; when the store reports no error,
`updateTranscript` returns success and every row whose
`deepgram_request_id` equals the request id gets the transcript text, the
word array and status `transcribed`, while every other row is unchanged. -/
theorem webhook_transcript_update (m : DeepgramMetadata)
    (a : DeepgramAlternative) (alts : List DeepgramAlternative)
    (cs : List Channel) (s : VideosStore) (he : s.updateError = false) :
    extractCallbackFields
        { metadata := some m,
          results := some { channels := { alternatives := a :: alts } :: cs } } =
      some (m.request_id, a.transcript, a.words) ∧
    (updateTranscript m.request_id a.transcript a.words s).1.success = true ∧
    (callbackPOST
        (CallbackRequest.json
          { metadata := some m,
            results := some { channels := { alternatives := a :: alts } :: cs } })
        s).2.rows.length = s.rows.length ∧
    ∀ (i : Nat) (r : VideoRow), s.rows[i]? = some r →
      ∃ r2,
        (callbackPOST
            (CallbackRequest.json
              { metadata := some m,
                results := some { channels := { alternatives := a :: alts } :: cs } })
            s).2.rows[i]? = some r2 ∧
        (r.deepgram_request_id = some m.request_id →
           r2.transcript_text = some a.transcript ∧
           r2.transcript_data_full = some a.words ∧
           r2.status = "transcribed") ∧
        (r.deepgram_request_id ≠ some m.request_id → r2 = r) := by
  have hrows :
      (callbackPOST
          (CallbackRequest.json
            { metadata := some m,
              results := some { channels := { alternatives := a :: alts } :: cs } })
          s).2.rows =
        s.rows.map (applyTranscriptUpdate m.request_id a.transcript a.words) := by
    simp [callbackPOST, extractCallbackFields, updateTranscript, he]
  refine ⟨rfl, by simp [updateTranscript, he], ?_, ?_⟩
  · rw [hrows, List.length_map]
  · intro i r hr
    refine ⟨applyTranscriptUpdate m.request_id a.transcript a.words r, ?_, ?_, ?_⟩
    · rw [hrows, List.getElem?_map, hr]
      rfl
    · intro hmatch
      simp [applyTranscriptUpdate, hmatch]
    · intro hnomatch
      simp [applyTranscriptUpdate, hnomatch]

/-- Witness for C2: a one-word payload with request id `abc` against a
store holding one matching row and no store error. -/
theorem webhook_transcript_update_witness :
    (VideosStore.mk
        [VideoRow.mk "v1" "p1" "videos/p1/f.mp4" "transcribing" none none
          (some "abc")] false).updateError = false ∧
    (updateTranscript "abc" "cuban"
        [WordTimeStamps.mk "cuban" (13/10) (18/10) (87/100)]
        (VideosStore.mk
          [VideoRow.mk "v1" "p1" "videos/p1/f.mp4" "transcribing" none none
            (some "abc")] false)).1.success = true :=
  ⟨rfl,
   (webhook_transcript_update (DeepgramMetadata.mk "abc")
      (DeepgramAlternative.mk "cuban"
        [WordTimeStamps.mk "cuban" (13/10) (18/10) (87/100)])
      [] []
      (VideosStore.mk
        [VideoRow.mk "v1" "p1" "videos/p1/f.mp4" "transcribing" none none
          (some "abc")] false) rfl).2.1⟩

/-- C5. Webhook response codes: unparseable JSON or a payload missing the
expected nested fields yields `500 error` with the store untouched; a
payload of the documented shape yields `200 ok`; and a well-formed
payload whose request id matches no row leaves the store unchanged while
still replying `200`. -/
theorem webhook_response_codes (s : VideosStore) :
    (callbackPOST CallbackRequest.invalidJson s =
       ({ body := "error", status := 500 }, s)) ∧
    (∀ b, extractCallbackFields b = none →
       callbackPOST (CallbackRequest.json b) s =
         ({ body := "error", status := 500 }, s)) ∧
    (∀ b fields, extractCallbackFields b = some fields →
       (callbackPOST (CallbackRequest.json b) s).1 =
         { body := "ok", status := 200 }) ∧
    (∀ b requestId transcriptText transcriptData,
       s.updateError = false →
       extractCallbackFields b = some (requestId, transcriptText, transcriptData) →
       (∀ r ∈ s.rows, r.deepgram_request_id ≠ some requestId) →
       (callbackPOST (CallbackRequest.json b) s).2 = s) := by
  refine ⟨rfl, ?_, ?_, ?_⟩
  · intro b hb
    simp [callbackPOST, hb]
  · intro b fields hb
    obtain ⟨requestId, transcriptText, transcriptData⟩ := fields
    simp [callbackPOST, hb]
  · intro b requestId transcriptText transcriptData he hb hnomatch
    have hmap :
        s.rows.map (applyTranscriptUpdate requestId transcriptText transcriptData) =
          s.rows := by
      conv_rhs => rw [← List.map_id s.rows]
      refine List.map_congr_left ?_
      intro r hr
      simp [applyTranscriptUpdate, hnomatch r hr]
    simp [callbackPOST, hb, updateTranscript, he, hmap]
    rw [← he]

/-- Witness for C5: a concrete store with a single row whose request id
is `zzz`, exercised with unparseable JSON, a body with no `metadata` or
`results`, and a well-formed payload whose request id `abc` matches no
row. -/
theorem webhook_response_codes_witness :
    (callbackPOST CallbackRequest.invalidJson
        (VideosStore.mk
          [VideoRow.mk "v1" "p1" "sp" "uploaded" none none (some "zzz")]
          false) =
       ({ body := "error", status := 500 },
        VideosStore.mk
          [VideoRow.mk "v1" "p1" "sp" "uploaded" none none (some "zzz")]
          false)) ∧
    (callbackPOST (CallbackRequest.json (RawCallbackBody.mk none none))
        (VideosStore.mk
          [VideoRow.mk "v1" "p1" "sp" "uploaded" none none (some "zzz")]
          false) =
       ({ body := "error", status := 500 },
        VideosStore.mk
          [VideoRow.mk "v1" "p1" "sp" "uploaded" none none (some "zzz")]
          false)) ∧
    ((callbackPOST
        (CallbackRequest.json
          (RawCallbackBody.mk (some (DeepgramMetadata.mk "abc"))
            (some (DeepgramResults.mk
              [Channel.mk
                [DeepgramAlternative.mk "cuban"
                  [WordTimeStamps.mk "cuban" (13/10) (18/10) (87/100)]]]))))
        (VideosStore.mk
          [VideoRow.mk "v1" "p1" "sp" "uploaded" none none (some "zzz")]
          false)).1 = { body := "ok", status := 200 }) ∧
    ((callbackPOST
        (CallbackRequest.json
          (RawCallbackBody.mk (some (DeepgramMetadata.mk "abc"))
            (some (DeepgramResults.mk
              [Channel.mk
                [DeepgramAlternative.mk "cuban"
                  [WordTimeStamps.mk "cuban" (13/10) (18/10) (87/100)]]]))))
        (VideosStore.mk
          [VideoRow.mk "v1" "p1" "sp" "uploaded" none none (some "zzz")]
          false)).2 =
      VideosStore.mk
        [VideoRow.mk "v1" "p1" "sp" "uploaded" none none (some "zzz")]
        false) := by
  refine ⟨(webhook_response_codes _).1,
          (webhook_response_codes _).2.1 _ rfl,
          (webhook_response_codes _).2.2.1 _ ("abc", "cuban",
            [WordTimeStamps.mk "cuban" (13/10) (18/10) (87/100)]) rfl,
          (webhook_response_codes _).2.2.2 _ "abc" "cuban"
            [WordTimeStamps.mk "cuban" (13/10) (18/10) (87/100)] rfl rfl ?_⟩
  intro r hr
  simp only [List.mem_singleton] at hr
  subst hr
  simp

/-- C9. A database failure is invisible at the wire level: when the store
reports an update error, `updateTranscript` converts it into a
`success = false` result without touching the rows, yet the webhook
handler ignores that result and replies `200 ok`, exactly as it does when
the update succeeds. -/
theorem webhook_masks_db_failure (s : VideosStore) (b : RawCallbackBody)
    (requestId transcriptText : String) (transcriptData : List WordTimeStamps)
    (hx : extractCallbackFields b = some (requestId, transcriptText, transcriptData))
    (he : s.updateError = true) :
    (updateTranscript requestId transcriptText transcriptData s).1 =
      { success := false, error := some "Failed to update transcript" } ∧
    (updateTranscript requestId transcriptText transcriptData s).2 = s ∧
    (callbackPOST (CallbackRequest.json b) s).1 = { body := "ok", status := 200 } ∧
    (callbackPOST (CallbackRequest.json b) s).1 =
      (callbackPOST (CallbackRequest.json b)
        { s with updateError := false }).1 := by
  refine ⟨by simp [updateTranscript, he], by simp [updateTranscript, he],
          by simp [callbackPOST, hx], ?_⟩
  simp [callbackPOST, hx]

/-- Witness for C9: a failing store with one matching row; the handler
still replies `200`. -/
theorem webhook_masks_db_failure_witness :
    extractCallbackFields
        (RawCallbackBody.mk (some (DeepgramMetadata.mk "abc"))
          (some (DeepgramResults.mk
            [Channel.mk
              [DeepgramAlternative.mk "cuban"
                [WordTimeStamps.mk "cuban" (13/10) (18/10) (87/100)]]]))) =
      some ("abc", "cuban", [WordTimeStamps.mk "cuban" (13/10) (18/10) (87/100)]) ∧
    (VideosStore.mk
        [VideoRow.mk "v1" "p1" "sp" "transcribing" none none (some "abc")]
        true).updateError = true ∧
    (callbackPOST
        (CallbackRequest.json
          (RawCallbackBody.mk (some (DeepgramMetadata.mk "abc"))
            (some (DeepgramResults.mk
              [Channel.mk
                [DeepgramAlternative.mk "cuban"
                  [WordTimeStamps.mk "cuban" (13/10) (18/10) (87/100)]]]))))
        (VideosStore.mk
          [VideoRow.mk "v1" "p1" "sp" "transcribing" none none (some "abc")]
          true)).1 = { body := "ok", status := 200 } :=
  ⟨rfl, rfl,
   (webhook_masks_db_failure
      (VideosStore.mk
        [VideoRow.mk "v1" "p1" "sp" "transcribing" none none (some "abc")]
        true)
      (RawCallbackBody.mk (some (DeepgramMetadata.mk "abc"))
        (some (DeepgramResults.mk
          [Channel.mk
            [DeepgramAlternative.mk "cuban"
              [WordTimeStamps.mk "cuban" (13/10) (18/10) (87/100)]]])))
      "abc" "cuban" [WordTimeStamps.mk "cuban" (13/10) (18/10) (87/100)]
      rfl rfl).2.2.1⟩

/-- C8. Delete-video partial-failure tolerance: for an owned video whose
database delete succeeds, the record is deleted and, when the storage
path is truthy, exactly one storage remove is attempted; a storage
failure is merely logged, is not retried, does not roll back the record
deletion, and the overall action still returns success. -/
theorem deleteVideo_tolerates_storage_failure (env : DeleteEnv) (v : VideoMeta)
    (hid : env.idValid = true) (ha : env.authed = true)
    (hv : env.video = some v) (hdb : env.dbDeleteError = false)
    (hsp : v.storage_path ≠ "") (hse : env.storageDeleteError = true) :
    (deleteVideo env).1 = { success := true, error := none } ∧
    (deleteVideo env).2.recordDeleted = true ∧
    (deleteVideo env).2.storageRemoveCalls = 1 ∧
    (deleteVideo env).2.loggedStorageErrors = 1 ∧
    (deleteVideoFile env
        { emptyDeleteTrace with recordDeleted := true }).1.success = true := by
  simp [deleteVideo, deleteVideoFile, emptyDeleteTrace, hid, ha, hv, hdb, hsp,
    hse]

/-- Witness for C8: an authenticated owner, a found video with a
non-empty storage path, a successful database delete and a failing
storage delete. -/
theorem deleteVideo_tolerates_storage_failure_witness :
    (DeleteEnv.mk true true (some (VideoMeta.mk "p1" "videos/p1/f.mp4"))
        false true).idValid = true ∧
    (DeleteEnv.mk true true (some (VideoMeta.mk "p1" "videos/p1/f.mp4"))
        false true).authed = true ∧
    (VideoMeta.mk "p1" "videos/p1/f.mp4").storage_path ≠ "" ∧
    ((deleteVideo
        (DeleteEnv.mk true true (some (VideoMeta.mk "p1" "videos/p1/f.mp4"))
          false true)).1 = { success := true, error := none } ∧
     (deleteVideo
        (DeleteEnv.mk true true (some (VideoMeta.mk "p1" "videos/p1/f.mp4"))
          false true)).2.recordDeleted = true ∧
     (deleteVideo
        (DeleteEnv.mk true true (some (VideoMeta.mk "p1" "videos/p1/f.mp4"))
          false true)).2.storageRemoveCalls = 1 ∧
     (deleteVideo
        (DeleteEnv.mk true true (some (VideoMeta.mk "p1" "videos/p1/f.mp4"))
          false true)).2.loggedStorageErrors = 1 ∧
     (deleteVideoFile
        (DeleteEnv.mk true true (some (VideoMeta.mk "p1" "videos/p1/f.mp4"))
          false true)
        { emptyDeleteTrace with recordDeleted := true }).1.success = true) :=
  ⟨rfl, rfl, by decide,
   deleteVideo_tolerates_storage_failure
     (DeleteEnv.mk true true (some (VideoMeta.mk "p1" "videos/p1/f.mp4"))
       false true)
     (VideoMeta.mk "p1" "videos/p1/f.mp4") rfl rfl rfl rfl (by decide) rfl⟩

/-- C10. Field-level validation in `uploadVideoFile` runs before the
store client is created and before the authentication check: for a
missing file, a falsy project id, an oversized file or a disallowed MIME
type, the action returns the specific validation error with the client
never created and no storage upload issued, for every environment,
authenticated or not. -/
theorem uploadVideoFile_validation_precedes_auth (form : UploadForm)
    (env : UploadEnv) :
    (form.file = none →
       uploadVideoFile form env =
         ({ success := false, error := some "No file provided" },
          noUploadEffects)) ∧
    (∀ f : UploadFile, form.file = some f → jsFalsyStr form.projectId = true →
       uploadVideoFile form env =
         ({ success := false, error := some "Project ID is required" },
          noUploadEffects)) ∧
    (∀ f : UploadFile, form.file = some f → jsFalsyStr form.projectId = false →
       f.size > maxSize →
       uploadVideoFile form env =
         ({ success := false, error := some "File size must be less than 100MB" },
          noUploadEffects)) ∧
    (∀ f : UploadFile, form.file = some f → jsFalsyStr form.projectId = false →
       ¬(f.size > maxSize) → allowedTypes.contains f.type = false →
       uploadVideoFile form env =
         ({ success := false,
            error :=
              some "File type not supported. Please use MP4, MOV, AVI, or WebM" },
          noUploadEffects)) := by
  refine ⟨?_, ?_, ?_, ?_⟩
  · intro hf
    simp [uploadVideoFile, hf]
  · intro f hf hfalsy
    simp [uploadVideoFile, hf, hfalsy]
  · intro f hf hfalsy hsize
    simp [uploadVideoFile, hf, hfalsy, hsize]
  · intro f hf hfalsy hsize htype
    have hmem : f.type ∉ allowedTypes := by
      simpa using htype
    simp [uploadVideoFile, hf, hfalsy, hsize, hmem]

/-- Witness for C10: all four invalid-input classes at concrete forms,
under an environment whose caller is authenticated and owns the project,
so the specific validation message, not the authentication error, is
observed. -/
theorem uploadVideoFile_validation_precedes_auth_witness :
    (uploadVideoFile (UploadForm.mk none (some "p1"))
        (UploadEnv.mk true true false) =
      ({ success := false, error := some "No file provided" },
       noUploadEffects)) ∧
    (uploadVideoFile
        (UploadForm.mk (some (UploadFile.mk "a.mp4" 5 "video/mp4")) none)
        (UploadEnv.mk true true false) =
      ({ success := false, error := some "Project ID is required" },
       noUploadEffects)) ∧
    (uploadVideoFile
        (UploadForm.mk (some (UploadFile.mk "a.mp4" 104857601 "video/mp4"))
          (some "p1"))
        (UploadEnv.mk true true false) =
      ({ success := false, error := some "File size must be less than 100MB" },
       noUploadEffects)) ∧
    (uploadVideoFile
        (UploadForm.mk (some (UploadFile.mk "a.txt" 5 "text/plain"))
          (some "p1"))
        (UploadEnv.mk true true false) =
      ({ success := false,
         error :=
           some "File type not supported. Please use MP4, MOV, AVI, or WebM" },
       noUploadEffects)) :=
  ⟨(uploadVideoFile_validation_precedes_auth (UploadForm.mk none (some "p1"))
      (UploadEnv.mk true true false)).1 rfl,
   (uploadVideoFile_validation_precedes_auth
      (UploadForm.mk (some (UploadFile.mk "a.mp4" 5 "video/mp4")) none)
      (UploadEnv.mk true true false)).2.1
     (UploadFile.mk "a.mp4" 5 "video/mp4") rfl rfl,
   (uploadVideoFile_validation_precedes_auth
      (UploadForm.mk (some (UploadFile.mk "a.mp4" 104857601 "video/mp4"))
        (some "p1"))
      (UploadEnv.mk true true false)).2.2.1
     (UploadFile.mk "a.mp4" 104857601 "video/mp4") rfl (by decide)
     (by decide),
   (uploadVideoFile_validation_precedes_auth
      (UploadForm.mk (some (UploadFile.mk "a.txt" 5 "text/plain"))
        (some "p1"))
      (UploadEnv.mk true true false)).2.2.2
     (UploadFile.mk "a.txt" 5 "text/plain") rfl (by decide) (by decide)
     (by decide)⟩
